import Mathlib

/-!
Shallow embedding of the melonJS `Ellipse` shape (src/geometries/ellipse.js)
over the rationals. JS numbers are IEEE doubles; every claim checked here is
either exact rational arithmetic in the source or restricted to inputs where
the double and rational computations agree on the stated (in)equalities,
so `ℚ` is used throughout. State is passed explicitly: each mutating method
of the class becomes a function `Ellipse → ... → Ellipse`.
-/

namespace Melon

/-- Modelled from the spec: the external `Vector2d` collaborator (its source is
not under the staged files). A 2D vector of rationals; the spec requires
`set`, component-wise `scaleV`, and `rotate` about an optional pivot. -/
@[ext]
structure Vector2 where
  x : ℚ
  y : ℚ
deriving DecidableEq

/-- Modelled from the spec: `Vector2d.set(x, y)` overwrites both components. -/
def Vector2.set (_v : Vector2) (x y : ℚ) : Vector2 := ⟨x, y⟩

/-- Modelled from the spec: `Vector2d.scaleV(v)` scales component-wise. -/
def Vector2.scaleV (v w : Vector2) : Vector2 := ⟨v.x * w.x, v.y * w.y⟩

/-- Modelled from the spec: `Vector2d.rotate(angle, pivot?)` rotates the point
counter-clockwise about the optional pivot (default: the origin). The cosine
and sine of the angle enter as parameters `c` and `s`, since the embedding is
over the rationals; the claims proved below hold for every pair `(c, s)`. -/
def Vector2.rotate (v : Vector2) (c s : ℚ) (pivot : Option Vector2) : Vector2 :=
  let p := pivot.getD ⟨0, 0⟩
  let dx := v.x - p.x
  let dy := v.y - p.y
  ⟨p.x + (dx * c - dy * s), p.y + (dx * s + dy * c)⟩

/-- Modelled from the spec: the external `Bounds` collaborator (its source is
not under the staged files), an axis-aligned box supporting `setMinMax`,
`translate` and `shift`. -/
@[ext]
structure Bounds where
  minX : ℚ
  minY : ℚ
  maxX : ℚ
  maxY : ℚ
deriving DecidableEq

/-- Modelled from the spec: `Bounds.setMinMax` overwrites all four corners. -/
def Bounds.setMinMax (_b : Bounds) (minX minY maxX maxY : ℚ) : Bounds :=
  ⟨minX, minY, maxX, maxY⟩

/-- Modelled from the spec: `Bounds.translate(dx, dy)` shifts the whole box. -/
def Bounds.translate (b : Bounds) (dx dy : ℚ) : Bounds :=
  ⟨b.minX + dx, b.minY + dy, b.maxX + dx, b.maxY + dy⟩

/-- Modelled from the spec: `Bounds.shift(point)` recenters the box position
(top-left corner) to the given point, preserving its size. -/
def Bounds.shift (b : Bounds) (p : Vector2) : Bounds :=
  ⟨p.x, p.y, p.x + (b.maxX - b.minX), p.y + (b.maxY - b.minY)⟩

/-- The `Ellipse` instance state: `pos` (center), `radius` (major semi-axis),
`radiusV` (semi-axis vector), `radiusSq` (the normalisation vector used by
`contains`), `ratio` (x/y scaling ratio) and the materialised bounds (the JS
`_bounds` is created lazily from the pool; the constructor's `setShape` call
materialises it at once, so it is kept inline here). -/
@[ext]
structure Ellipse where
  pos : Vector2
  radius : ℚ
  radiusV : Vector2
  radiusSq : Vector2
  ratio : Vector2
  bounds : Bounds
deriving DecidableEq

/-- `Ellipse.prototype.setShape(x, y, w, h)`: recomputes every derived field.
Mirrors the source line by line, including `setMinMax(x, y, x + w, x + h)`
(the source passes `x + h`, not `y + h`, as the fourth argument). -/
def Ellipse.setShape (e : Ellipse) (x y w h : ℚ) : Ellipse :=
  let hW := w / 2
  let hH := h / 2
  let radius := max hW hH
  let ratio := (Vector2.mk 0 0).set (hW / radius) (hH / radius)
  let radiusV := ((Vector2.mk 0 0).set radius radius).scaleV ratio
  let r := radius * radius
  let radiusSq := ((Vector2.mk 0 0).set r r).scaleV ratio
  let b := (e.bounds.setMinMax x y (x + w) (x + h)).translate (-radiusV.x) (-radiusV.y)
  { pos := e.pos.set x y, radius := radius, radiusV := radiusV,
    radiusSq := radiusSq, ratio := ratio, bounds := b }

/-- `new Ellipse(x, y, w, h)`: the constructor zero-initialises the vectors
(`radius` starts as NaN in JS, immediately overwritten) and calls `setShape`. -/
def Ellipse.new (x y w h : ℚ) : Ellipse :=
  (Ellipse.mk ⟨0, 0⟩ 0 ⟨0, 0⟩ ⟨0, 0⟩ ⟨0, 0⟩ ⟨0, 0, 0, 0⟩).setShape x y w h

/-- `Ellipse.prototype.contains(x, y)` (two-scalar arity of the
polymorphic-arity method). -/
def Ellipse.contains (e : Ellipse) (x y : ℚ) : Bool :=
  let dx := x - e.pos.x
  let dy := y - e.pos.y
  decide ((dx * dx) / e.radiusSq.x + (dy * dy) / e.radiusSq.y ≤ 1)

/-- `Ellipse.prototype.contains(point)` (one-vector arity): the source reads
`.x`/`.y` off the argument and proceeds identically. -/
def Ellipse.containsV (e : Ellipse) (v : Vector2) : Bool :=
  e.contains v.x v.y

/-- `Ellipse.prototype.translate(x, y)` (two-scalar arity). -/
def Ellipse.translate (e : Ellipse) (dx dy : ℚ) : Ellipse :=
  { e with pos := ⟨e.pos.x + dx, e.pos.y + dy⟩,
           bounds := e.bounds.translate dx dy }

/-- `Ellipse.prototype.translate(v)` (one-vector arity). -/
def Ellipse.translateV (e : Ellipse) (v : Vector2) : Ellipse :=
  e.translate v.x v.y

/-- `Ellipse.prototype.scale(x, y)` with both arguments supplied. -/
def Ellipse.scale (e : Ellipse) (x y : ℚ) : Ellipse :=
  e.setShape e.pos.x e.pos.y (e.radiusV.x * 2 * x) (e.radiusV.y * 2 * y)

/-- `Ellipse.prototype.scale(x)` with `y` omitted: the source defaults `y` to `x`. -/
def Ellipse.scaleOne (e : Ellipse) (x : ℚ) : Ellipse :=
  e.scale x x

/-- `Ellipse.prototype.scaleV(v)`. -/
def Ellipse.scaleV (e : Ellipse) (v : Vector2) : Ellipse :=
  e.scale v.x v.y

/-- `Ellipse.prototype.rotate(angle, v?)`: rotates `pos`, then `shift`s the
bounds to the new `pos` and re-translates by `-radiusV`. -/
def Ellipse.rotate (e : Ellipse) (c s : ℚ) (pivot : Option Vector2) : Ellipse :=
  let p := e.pos.rotate c s pivot
  let b := (e.bounds.shift p).translate (-e.radiusV.x) (-e.radiusV.y)
  { e with pos := p, bounds := b }

/-- `Ellipse.prototype.clone()`: a fresh Ellipse from the current center and
`radiusV`-derived diameters. -/
def Ellipse.clone (e : Ellipse) : Ellipse :=
  Ellipse.new e.pos.x e.pos.y (e.radiusV.x * 2) (e.radiusV.y * 2)

/-- `setShape` rebuilds every field from its arguments alone: no field of the
result depends on the receiver (`Vector2.set` and `Bounds.setMinMax` overwrite
completely), so any two receivers give the same result. -/
theorem setShape_receiver_irrelevant (e1 e2 : Ellipse) (x y w h : ℚ) :
    e1.setShape x y w h = e2.setShape x y w h := rfl

/-- Cancellation helper for the `radius * (a / radius)` patterns `setShape`
produces. -/
theorem rat_mul_div_cancel (R a : ℚ) (hR : R ≠ 0) : R * (a / R) = a := by
  rw [mul_comm]
  exact div_mul_cancel₀ a hR

/-- After `setShape` with a positive width (so that `radius ≠ 0`), `radiusV`
is the half-diameter vector `(w/2, h/2)`. -/
theorem setShape_radiusV (e : Ellipse) (x y w h : ℚ) (hw : 0 < w) :
    (e.setShape x y w h).radiusV = ⟨w / 2, h / 2⟩ := by
  have hR : (0 : ℚ) < max (w / 2) (h / 2) := lt_max_of_lt_left (by positivity)
  ext
  · exact rat_mul_div_cancel _ (w / 2) hR.ne'
  · exact rat_mul_div_cancel _ (h / 2) hR.ne'

/-- The invariant §3 of the spec states for the derived fields: `radiusV` is
positive and `radius`, `ratio` and `radiusSq` are the values `setShape`
derives from it. It holds after any `setShape` with positive diameters and is
preserved by `translate` and `rotate`, which do not touch these fields. -/
def Ellipse.wellFormed (e : Ellipse) : Prop :=
  0 < e.radiusV.x ∧ 0 < e.radiusV.y ∧
  e.radius = max e.radiusV.x e.radiusV.y ∧
  e.ratio = ⟨e.radiusV.x / e.radius, e.radiusV.y / e.radius⟩ ∧
  e.radiusSq = ⟨e.radius * e.radiusV.x, e.radius * e.radiusV.y⟩

/-- `setShape` with positive diameters establishes the derived-field
invariant. -/
theorem wellFormed_setShape (e : Ellipse) (x y w h : ℚ) (hw : 0 < w) (hh : 0 < h) :
    (e.setShape x y w h).wellFormed := by
  have hV := setShape_radiusV e x y w h hw
  refine ⟨?_, ?_, ?_, ?_, ?_⟩
  · rw [hV]
    show (0 : ℚ) < w / 2
    positivity
  · rw [hV]
    show (0 : ℚ) < h / 2
    positivity
  · rw [hV]
    rfl
  · rw [hV]
    rfl
  · show (Vector2.mk
        (max (w / 2) (h / 2) * max (w / 2) (h / 2) * (w / 2 / max (w / 2) (h / 2)))
        (max (w / 2) (h / 2) * max (w / 2) (h / 2) * (h / 2 / max (w / 2) (h / 2)))) =
      ⟨max (w / 2) (h / 2) * (max (w / 2) (h / 2) * (w / 2 / max (w / 2) (h / 2))),
        max (w / 2) (h / 2) * (max (w / 2) (h / 2) * (h / 2 / max (w / 2) (h / 2)))⟩
    rw [mul_assoc, mul_assoc]

/-- `translate` leaves every derived field alone, so it preserves the
invariant. -/
theorem wellFormed_translate (e : Ellipse) (dx dy : ℚ) :
    (e.translate dx dy).wellFormed ↔ e.wellFormed := Iff.rfl

/-- `rotate` leaves every derived field alone, so it preserves the
invariant. -/
theorem wellFormed_rotate (e : Ellipse) (c s : ℚ) (pivot : Option Vector2) :
    (e.rotate c s pivot).wellFormed ↔ e.wellFormed := Iff.rfl

end Melon

namespace Melon

/-- C1: the spec claims the bounds after `setShape(x, y, w, h)` is the box
`[x, y]..[x+w, y+h]` shifted by `-radiusV`, hence of size `(2·radiusV.x,
2·radiusV.y)`. The source instead passes `x + h` (not `y + h`) as the maxY of
`setMinMax`, so on `setShape(1, 0, 4, 2)` the bounds is `[-1, -1]..[3, 2]`:
its height is `3`, not `2·radiusV.y = 2`. -/
theorem C1_bounds_height_bug :
    ((Ellipse.new 0 0 4 2).setShape 1 0 4 2).bounds.minX = -1 ∧
    ((Ellipse.new 0 0 4 2).setShape 1 0 4 2).bounds.minY = -1 ∧
    ((Ellipse.new 0 0 4 2).setShape 1 0 4 2).bounds.maxX = 3 ∧
    ((Ellipse.new 0 0 4 2).setShape 1 0 4 2).bounds.maxY = 2 ∧
    ((Ellipse.new 0 0 4 2).setShape 1 0 4 2).radiusV.y * 2 = 2 ∧
    ((Ellipse.new 0 0 4 2).setShape 1 0 4 2).bounds.maxY -
        ((Ellipse.new 0 0 4 2).setShape 1 0 4 2).bounds.minY ≠ 2 := by
  norm_num [Ellipse.new, Ellipse.setShape, Vector2.set, Vector2.scaleV,
    Bounds.setMinMax, Bounds.translate, max_def]

/-- C2 counterexample: the claim says `contains(0, 1.0001)` returns `false` on
`new Ellipse(0, 0, 4, 2)`; in fact `1.0001² / radiusSq.y = 1.00020001 / 2 ≤ 1`,
so the source returns `true`. -/
theorem C2_contains_cex :
    (Ellipse.new 0 0 4 2).contains 0 (10001 / 10000) = true := by
  norm_num [Ellipse.new, Ellipse.setShape, Ellipse.contains, Vector2.set,
    Vector2.scaleV, max_def]

/-- C2 (amended): on `new Ellipse(0, 0, 4, 2)`: `radius = 2`,
`ratio = (1, 0.5)`, `radiusV = (2, 1)`, `radiusSq = (4, 2)`,
`contains(1, 0) = true`, `contains(0, 1.0001) = true` (not `false`), and the
bounds has top-left `(-2, -1)` and size `(4, 2)`. -/
theorem C2_concrete :
    (Ellipse.new 0 0 4 2).radius = 2 ∧
    (Ellipse.new 0 0 4 2).ratio = ⟨1, 1 / 2⟩ ∧
    (Ellipse.new 0 0 4 2).radiusV = ⟨2, 1⟩ ∧
    (Ellipse.new 0 0 4 2).radiusSq = ⟨4, 2⟩ ∧
    (Ellipse.new 0 0 4 2).contains 1 0 = true ∧
    (Ellipse.new 0 0 4 2).contains 0 (10001 / 10000) = true ∧
    (Ellipse.new 0 0 4 2).bounds.minX = -2 ∧
    (Ellipse.new 0 0 4 2).bounds.minY = -1 ∧
    (Ellipse.new 0 0 4 2).bounds.maxX - (Ellipse.new 0 0 4 2).bounds.minX = 4 ∧
    (Ellipse.new 0 0 4 2).bounds.maxY - (Ellipse.new 0 0 4 2).bounds.minY = 2 := by
  norm_num [Ellipse.new, Ellipse.setShape, Ellipse.contains, Vector2.set,
    Vector2.scaleV, Bounds.setMinMax, Bounds.translate, max_def]

/-- C3: for any state set by `setShape(x, y, w, h)`, `contains(px, py)` returns
`true` exactly when `dx²/radiusSq.x + dy²/radiusSq.y ≤ 1` with `dx = px - x`,
`dy = py - y` and `radiusSq = radius² ⊙ ratio` (here spelled out with
`radius = max (w/2) (h/2)` and `ratio = (w/2/radius, h/2/radius)`); the
one-vector form agrees with the two-scalar form. -/
theorem C3_contains_formula (e0 : Ellipse) (x y w h px py : ℚ) :
    ((e0.setShape x y w h).contains px py = true ↔
      (px - x) * (px - x) /
          (max (w / 2) (h / 2) * max (w / 2) (h / 2) * (w / 2 / max (w / 2) (h / 2))) +
        (py - y) * (py - y) /
          (max (w / 2) (h / 2) * max (w / 2) (h / 2) * (h / 2 / max (w / 2) (h / 2))) ≤ 1) ∧
    (e0.setShape x y w h).containsV ⟨px, py⟩ = (e0.setShape x y w h).contains px py := by
  constructor
  · simp [Ellipse.contains, Ellipse.setShape, Vector2.set, Vector2.scaleV]
  · rfl

/-- C4: for positive diameters, after `setShape(x, y, w, h)` the field
`radius` equals `max (w/2) (h/2)` and `radiusV` doubles back to the diameters:
`radiusV.x · 2 = w` and `radiusV.y · 2 = h`, exactly over the rationals. -/
theorem C4_radii (e0 : Ellipse) (x y w h : ℚ) (hw : 0 < w) (hh : 0 < h) :
    (e0.setShape x y w h).radius = max (w / 2) (h / 2) ∧
    (e0.setShape x y w h).radiusV.x * 2 = w ∧
    (e0.setShape x y w h).radiusV.y * 2 = h := by
  have hV := setShape_radiusV e0 x y w h hw
  refine ⟨rfl, ?_, ?_⟩ <;> rw [hV] <;> ring

/-- C4 witness: the theorem applied at `setShape(1, 2, 4, 2)` on a concrete
instance, the positivity hypotheses discharged numerically. -/
theorem C4_radii_witness :
    ((Ellipse.new 0 0 4 2).setShape 1 2 4 2).radius = max (4 / 2 : ℚ) (2 / 2) ∧
    ((Ellipse.new 0 0 4 2).setShape 1 2 4 2).radiusV.x * 2 = 4 ∧
    ((Ellipse.new 0 0 4 2).setShape 1 2 4 2).radiusV.y * 2 = 2 :=
  C4_radii (Ellipse.new 0 0 4 2) 1 2 4 2 (by norm_num) (by norm_num)

/-- C5 counterexample: the claim puts no restriction on `w, h`, but on
`setShape(0, 0, -2, -4)` the source computes `radius = max (-1) (-2) = -1` and
`ratio = ((-1) / (-1), (-2) / (-1)) = (1, 2)`: `ratio.y = 2 > 1`. -/
theorem C5_ratio_cex :
    ((Ellipse.new 0 0 4 2).setShape 0 0 (-2) (-4)).ratio.y = 2 := by
  norm_num [Ellipse.new, Ellipse.setShape, Vector2.set, Vector2.scaleV, max_def]

/-- C5 (amended): for every `setShape` with positive diameters, both ratio
components are at most `1` and at least one of them equals exactly `1`. -/
theorem C5_ratio_inv (e0 : Ellipse) (x y w h : ℚ) (hw : 0 < w) (hh : 0 < h) :
    (e0.setShape x y w h).ratio.x ≤ 1 ∧ (e0.setShape x y w h).ratio.y ≤ 1 ∧
    ((e0.setShape x y w h).ratio.x = 1 ∨ (e0.setShape x y w h).ratio.y = 1) := by
  have hR : (0 : ℚ) < max (w / 2) (h / 2) := lt_max_of_lt_left (by positivity)
  have hx : (e0.setShape x y w h).ratio.x = w / 2 / max (w / 2) (h / 2) := rfl
  have hy : (e0.setShape x y w h).ratio.y = h / 2 / max (w / 2) (h / 2) := rfl
  refine ⟨?_, ?_, ?_⟩
  · rw [hx]
    exact div_le_one_of_le₀ (le_max_left _ _) hR.le
  · rw [hy]
    exact div_le_one_of_le₀ (le_max_right _ _) hR.le
  · rcases le_total (h / 2) (w / 2) with hc | hc
    · left
      rw [hx, max_eq_left hc]
      exact div_self (by positivity)
    · right
      rw [hy, max_eq_right hc]
      exact div_self (by positivity)

/-- C5 witness: the amended invariant applied at `setShape(0, 0, 4, 2)` on a
concrete instance, the positivity hypotheses discharged numerically. -/
theorem C5_ratio_inv_witness :
    ((Ellipse.new 1 1 2 2).setShape 0 0 4 2).ratio.x ≤ 1 ∧
    ((Ellipse.new 1 1 2 2).setShape 0 0 4 2).ratio.y ≤ 1 ∧
    (((Ellipse.new 1 1 2 2).setShape 0 0 4 2).ratio.x = 1 ∨
      ((Ellipse.new 1 1 2 2).setShape 0 0 4 2).ratio.y = 1) :=
  C5_ratio_inv (Ellipse.new 1 1 2 2) 0 0 4 2 (by norm_num) (by norm_num)

/-- C6: `scale(sx, sy)` is exactly `setShape(pos.x, pos.y, radiusV.x·2·sx,
radiusV.y·2·sy)` on the pre-call fields, the one-argument form defaults `sy`
to `sx`, and `scaleV(v)` is `scale(v.x, v.y)`; concretely, `scale(2)` on
`new Ellipse(0, 0, 4, 2)` yields full width/height `(8, 4)` and bounds
top-left `(-4, -2)`. -/
theorem C6_scale_refines :
    (∀ (e : Ellipse) (sx sy : ℚ),
      e.scale sx sy =
        e.setShape e.pos.x e.pos.y (e.radiusV.x * 2 * sx) (e.radiusV.y * 2 * sy)) ∧
    (∀ (e : Ellipse) (sx : ℚ), e.scaleOne sx = e.scale sx sx) ∧
    (∀ (e : Ellipse) (v : Vector2), e.scaleV v = e.scale v.x v.y) ∧
    ((Ellipse.new 0 0 4 2).scaleOne 2).radiusV.x * 2 = 8 ∧
    ((Ellipse.new 0 0 4 2).scaleOne 2).radiusV.y * 2 = 4 ∧
    ((Ellipse.new 0 0 4 2).scaleOne 2).bounds.minX = -4 ∧
    ((Ellipse.new 0 0 4 2).scaleOne 2).bounds.minY = -2 := by
  refine ⟨fun _ _ _ => rfl, fun _ _ => rfl, fun _ _ => rfl, ?_, ?_, ?_, ?_⟩ <;>
    norm_num [Ellipse.new, Ellipse.setShape, Ellipse.scaleOne, Ellipse.scale,
      Vector2.set, Vector2.scaleV, Bounds.setMinMax, Bounds.translate, max_def]

/-- C7: for every ellipse satisfying the derived-field invariant (established
by any `setShape` with positive diameters and preserved by `translate` and
`rotate`), `clone()` rebuilds an ellipse with the same center and the same
`radiusV` (hence the same full width/height `2·radiusV`), and `contains` on
the clone agrees with `contains` on the original at every query point. -/
theorem C7_clone_agrees (e : Ellipse) (hwf : e.wellFormed) :
    e.clone.pos = e.pos ∧ e.clone.radiusV = e.radiusV ∧
    ∀ (px py : ℚ), e.clone.contains px py = e.contains px py := by
  obtain ⟨hx, hy, hrad, hratio, hsq⟩ := hwf
  have h2 : ∀ a : ℚ, a * 2 / 2 = a := fun a => by ring
  have hR : (0 : ℚ) < max e.radiusV.x e.radiusV.y := lt_max_of_lt_left hx
  have hV : e.clone.radiusV = e.radiusV := by
    have hs := setShape_radiusV (Ellipse.mk ⟨0, 0⟩ 0 ⟨0, 0⟩ ⟨0, 0⟩ ⟨0, 0⟩ ⟨0, 0, 0, 0⟩)
      e.pos.x e.pos.y (e.radiusV.x * 2) (e.radiusV.y * 2) (mul_pos hx two_pos)
    rw [show e.clone = (Ellipse.mk ⟨0, 0⟩ 0 ⟨0, 0⟩ ⟨0, 0⟩ ⟨0, 0⟩ ⟨0, 0, 0, 0⟩).setShape
        e.pos.x e.pos.y (e.radiusV.x * 2) (e.radiusV.y * 2) from rfl, hs]
    rw [show (⟨e.radiusV.x * 2 / 2, e.radiusV.y * 2 / 2⟩ : Vector2) =
        ⟨e.radiusV.x, e.radiusV.y⟩ by rw [h2, h2]]
  have hSq : e.clone.radiusSq = e.radiusSq := by
    have hc : e.clone.radiusSq =
        ⟨max (e.radiusV.x * 2 / 2) (e.radiusV.y * 2 / 2) *
            max (e.radiusV.x * 2 / 2) (e.radiusV.y * 2 / 2) *
            (e.radiusV.x * 2 / 2 / max (e.radiusV.x * 2 / 2) (e.radiusV.y * 2 / 2)),
          max (e.radiusV.x * 2 / 2) (e.radiusV.y * 2 / 2) *
            max (e.radiusV.x * 2 / 2) (e.radiusV.y * 2 / 2) *
            (e.radiusV.y * 2 / 2 / max (e.radiusV.x * 2 / 2) (e.radiusV.y * 2 / 2))⟩ := rfl
    rw [hc]
    simp only [h2]
    rw [hsq, hrad]
    ext
    · show max e.radiusV.x e.radiusV.y * max e.radiusV.x e.radiusV.y *
          (e.radiusV.x / max e.radiusV.x e.radiusV.y) =
        max e.radiusV.x e.radiusV.y * e.radiusV.x
      rw [mul_assoc]
      exact congrArg _ (rat_mul_div_cancel _ e.radiusV.x hR.ne')
    · show max e.radiusV.x e.radiusV.y * max e.radiusV.x e.radiusV.y *
          (e.radiusV.y / max e.radiusV.x e.radiusV.y) =
        max e.radiusV.x e.radiusV.y * e.radiusV.y
      rw [mul_assoc]
      exact congrArg _ (rat_mul_div_cancel _ e.radiusV.y hR.ne')
  refine ⟨rfl, hV, fun px py => ?_⟩
  simp only [Ellipse.contains, show e.clone.pos = e.pos from rfl, hSq]

/-- C7 witness: the theorem applied to the concrete instance
`new Ellipse(0, 0, 4, 2)`, whose invariant `wellFormed_setShape` discharges. -/
theorem C7_clone_agrees_witness :
    (Ellipse.new 0 0 4 2).clone.pos = (Ellipse.new 0 0 4 2).pos ∧
    (Ellipse.new 0 0 4 2).clone.radiusV = (Ellipse.new 0 0 4 2).radiusV ∧
    ∀ (px py : ℚ),
      (Ellipse.new 0 0 4 2).clone.contains px py =
        (Ellipse.new 0 0 4 2).contains px py :=
  C7_clone_agrees (Ellipse.new 0 0 4 2)
    (wellFormed_setShape (Ellipse.mk ⟨0, 0⟩ 0 ⟨0, 0⟩ ⟨0, 0⟩ ⟨0, 0⟩ ⟨0, 0, 0, 0⟩)
      0 0 4 2 (by norm_num) (by norm_num))

/-- C8: `translate` (in both arities) shifts `pos` and all four bounds
coordinates by exactly the given delta and leaves `radius`, `ratio`,
`radiusV` and `radiusSq` untouched. -/
theorem C8_translate_frame :
    (∀ (e : Ellipse) (dx dy : ℚ),
      (e.translate dx dy).pos = ⟨e.pos.x + dx, e.pos.y + dy⟩ ∧
      (e.translate dx dy).bounds =
        ⟨e.bounds.minX + dx, e.bounds.minY + dy,
          e.bounds.maxX + dx, e.bounds.maxY + dy⟩ ∧
      (e.translate dx dy).radius = e.radius ∧
      (e.translate dx dy).ratio = e.ratio ∧
      (e.translate dx dy).radiusV = e.radiusV ∧
      (e.translate dx dy).radiusSq = e.radiusSq) ∧
    (∀ (e : Ellipse) (v : Vector2), e.translateV v = e.translate v.x v.y) :=
  ⟨fun _ _ _ => ⟨rfl, rfl, rfl, rfl, rfl, rfl⟩, fun _ _ => rfl⟩

/-- C9: `translate(dx, dy)` followed by `translate(-dx, -dy)` restores `pos`
and `bounds` exactly, for all rational offsets. -/
theorem C9_translate_roundtrip (e : Ellipse) (dx dy : ℚ) :
    ((e.translate dx dy).translate (-dx) (-dy)).pos = e.pos ∧
    ((e.translate dx dy).translate (-dx) (-dy)).bounds = e.bounds := by
  constructor
  · ext <;> simp [Ellipse.translate, Bounds.translate]
  · ext <;> simp [Ellipse.translate, Bounds.translate]

/-- C10: `rotate(angle, pivot)` leaves `radius`, `ratio`, `radiusV` and
`radiusSq` unchanged and preserves the bounds' width and height; the bounds'
top-left corner ends at the new `pos` minus `radiusV`. Quantified over every
cosine/sine pair and every optional pivot. -/
theorem C10_rotate_frame (e : Ellipse) (c s : ℚ) (pivot : Option Vector2) :
    (e.rotate c s pivot).radius = e.radius ∧
    (e.rotate c s pivot).ratio = e.ratio ∧
    (e.rotate c s pivot).radiusV = e.radiusV ∧
    (e.rotate c s pivot).radiusSq = e.radiusSq ∧
    (e.rotate c s pivot).bounds.maxX - (e.rotate c s pivot).bounds.minX =
      e.bounds.maxX - e.bounds.minX ∧
    (e.rotate c s pivot).bounds.maxY - (e.rotate c s pivot).bounds.minY =
      e.bounds.maxY - e.bounds.minY ∧
    (e.rotate c s pivot).bounds.minX = (e.rotate c s pivot).pos.x - e.radiusV.x ∧
    (e.rotate c s pivot).bounds.minY = (e.rotate c s pivot).pos.y - e.radiusV.y := by
  refine ⟨rfl, rfl, rfl, rfl, ?_, ?_, ?_, ?_⟩ <;>
    simp [Ellipse.rotate, Bounds.shift, Bounds.translate, Vector2.rotate] <;> ring

end Melon
